import Mathlib

/-!
Shallow embedding of the ioBroker SolarEdge adapter's single-run logic
(`src/main.js`, function `main` and its helpers `checkStateCreationNeeded`,
`checkStatesCreationNeeded`).

Modelling conventions:
* The external state store is a list of the short state names (the part after
  `solaredge.<instance>.<siteid>.`) that currently exist; `getState` on a
  missing name (which resolves to a falsy value in the source) is membership
  in that list.
* An HTTP fetch outcome is an input: either a transport error (the `axios`
  call throws) or a response whose `data` field may be absent (falsy).
* JSON objects are structures whose optionally-absent members are `Option`s;
  a member access on an absent object in the source is a thrown `TypeError`,
  modelled as an explicit error flag, and the publishes already awaited
  before the throw are kept (they happened).
* JavaScript numbers that are only passed through (never computed with) are
  modelled as `Int`.
* `Math.floor(Math.random() * 60)` is modelled as `rand % 60` for an
  arbitrary `rand : Nat` supplied as an input.
-/

/-- A value written to the store by `setStateChangedAsync`. -/
inductive Value where
  | num (n : Int)
  | str (s : String)
  | bool (b : Bool)
deriving DecidableEq, Repr

/-- Log levels used by the adapter (`adapter.log.<level>`). -/
inductive LogLevel where
  | error
  | warn
  | info
  | debug
deriving DecidableEq, Repr

instance : BEq LogLevel := ⟨fun a b => decide (a = b)⟩

/-- Outcome of one `axios(url)` call: a thrown transport error, or a
response whose `data` member may be absent (falsy). -/
inductive FetchResult (α : Type) where
  | transportError
  | ok (data : Option α)
deriving DecidableEq, Repr

/-- `overview.currentPower` (`{power}`). -/
structure CPower where
  power : Int
deriving DecidableEq, Repr

/-- `overview.lifeTimeData` / `lastYearData` / `lastMonthData` /
`lastDayData` (`{energy}`). -/
structure EnergyData where
  energy : Int
deriving DecidableEq, Repr

/-- The `overview` object of the overview response; each sub-object may be
absent, in which case the source's member access throws. -/
structure OverviewObj where
  lastUpdateTime : String
  currentPower : Option CPower
  lifeTimeData : Option EnergyData
  lastYearData : Option EnergyData
  lastMonthData : Option EnergyData
  lastDayData : Option EnergyData
deriving DecidableEq, Repr

/-- Body (`response.data`) of the overview endpoint. -/
structure OverviewBody where
  overview : Option OverviewObj
deriving DecidableEq, Repr

/-- A node reading of the power-flow graph (`{currentPower, status,
chargeLevel}`). -/
structure NodeReading where
  currentPower : Int
  status : String
  chargeLevel : Int
deriving DecidableEq, Repr

/-- A connection edge of `siteCurrentPowerFlow.connections`. -/
structure Connection where
  from_ : String
  to_ : String
deriving DecidableEq, Repr

/-- The `siteCurrentPowerFlow` object; each of the four nodes may be absent
from the response. -/
structure PowerFlowObj where
  unit : String
  GRID : Option NodeReading
  LOAD : Option NodeReading
  PV : Option NodeReading
  STORAGE : Option NodeReading
  connections : List Connection
deriving DecidableEq, Repr

/-- Body (`response.data`) of the currentPowerFlow endpoint. -/
structure PowerFlowBody where
  siteCurrentPowerFlow : Option PowerFlowObj
deriving DecidableEq, Repr

/-- `adapter.config`: `siteid`, `apikey` (possibly unset), and the
`currentPowerFlow` feature flag. -/
structure Config where
  siteid : Option String
  apikey : Option String
  currentPowerFlow : Bool
deriving DecidableEq, Repr

/-- JavaScript falsiness of an optional string config entry: unset or the
empty string (the guard `!siteid || !apikey` at main.js:86). -/
def jsFalsy : Option String → Bool
  | none => true
  | some s => s == ""

/-- The state names existence-checked by `checkStatesCreationNeeded`
unconditionally (main.js:54-59). -/
def baseStateNames : List String :=
  ["lastUpdateTime", "currentPower", "lifeTimeData", "lastYearData",
   "lastMonthData", "lastDayData"]

/-- The extra state names existence-checked when
`adapter.config.currentPowerFlow` is set (main.js:62-74), in check order. -/
def powerFlowStateNames : List String :=
  ["currentFlowGrid", "currentFlowLoad", "currentFlowPv", "powerUnit",
   "feedToBattery", "batteryStatus", "batteryPowerFlow", "batteryChargeLevel",
   "feedToGrid", "gridPowerFlow", "housePowerFlow", "pvPowerFlow", "pvStatus"]

/-- All names checked in one `checkStatesCreationNeeded` call
(main.js:53-76). -/
def checkedStateNames (flag : Bool) : List String :=
  baseStateNames ++ (if flag then powerFlowStateNames else [])

/-- The extra state names declared inside the `createStates` block when the
feature flag is set (main.js:167-273), in declare order. -/
def powerFlowDeclareNames : List String :=
  ["powerUnit", "feedToBattery", "batteryStatus", "batteryChargeLevel",
   "batteryPowerFlow", "feedToGrid", "gridPowerFlow", "housePowerFlow",
   "pvPowerFlow", "pvStatus", "currentFlowGrid", "currentFlowLoad",
   "currentFlowPv"]

/-- All names declared by the `if (createStates)` block (main.js:103-277),
in declare order. -/
def declaredStateNames (flag : Bool) : List String :=
  baseStateNames ++ (if flag then powerFlowDeclareNames else [])

/-- The six overview publishes, main.js:281-286.  `currentPower` was already
dereferenced at main.js:101, so it is passed in; each remaining sub-object
access throws if the sub-object is absent, keeping the publishes already
made.  Returns the publish list and whether a `TypeError` was thrown. -/
def publishOverviewValues (siteid : String) (o : OverviewObj) (cp : CPower) :
    List (String × Value) × Bool :=
  let p0 := [(siteid ++ ".lastUpdateTime", Value.str o.lastUpdateTime),
             (siteid ++ ".currentPower", Value.num cp.power)]
  match o.lifeTimeData with
  | none => (p0, true)
  | some lt =>
    let p1 := p0 ++ [(siteid ++ ".lifeTimeData", Value.num lt.energy)]
    match o.lastYearData with
    | none => (p1, true)
    | some ly =>
      let p2 := p1 ++ [(siteid ++ ".lastYearData", Value.num ly.energy)]
      match o.lastMonthData with
      | none => (p2, true)
      | some lm =>
        let p3 := p2 ++ [(siteid ++ ".lastMonthData", Value.num lm.energy)]
        match o.lastDayData with
        | none => (p3, true)
        | some ld =>
          (p3 ++ [(siteid ++ ".lastDayData", Value.num ld.energy)], false)

/-- JavaScript `String.prototype.toLowerCase` restricted to the ASCII node
names exchanged here: every character lowercased. -/
def jsToLowerCase (s : String) : String :=
  String.mk (s.data.map Char.toLower)

/-- Whether a connection edge is `load -> grid` under the case-insensitive
comparison of main.js:306. -/
def isLoadToGrid (c : Connection) : Bool :=
  jsToLowerCase c.from_ == "load" && jsToLowerCase c.to_ == "grid"

/-- Whether a connection edge is `load -> storage` under the case-insensitive
comparison of main.js:309. -/
def isLoadToStorage (c : Connection) : Bool :=
  jsToLowerCase c.from_ == "load" && jsToLowerCase c.to_ == "storage"

/-- The power-flow interpret/publish pass, main.js:303-325.  The edge loop
sets the two derived flags; then the thirteen publishes run in source order.
`powerFlow.STORAGE.chargeLevel` at main.js:320 is NOT guarded: when the
STORAGE node is absent it throws a `TypeError`, so the publishes after it
(batteryChargeLevel, feedToGrid, gridPowerFlow, housePowerFlow, pvPowerFlow,
pvStatus) never happen.  Returns the publish list and the thrown flag. -/
def publishPowerFlow (siteid : String) (pf : PowerFlowObj) :
    List (String × Value) × Bool :=
  let feedToGrid := pf.connections.any isLoadToGrid
  let feedToBattery := pf.connections.any isLoadToStorage
  let p0 := [
    (siteid ++ ".currentFlowGrid",
      Value.num (match pf.GRID with | some g => g.currentPower | none => 0)),
    (siteid ++ ".currentFlowLoad",
      Value.num (match pf.LOAD with | some l => l.currentPower | none => 0)),
    (siteid ++ ".currentFlowPv",
      Value.num (match pf.PV with | some p => p.currentPower | none => 0)),
    (siteid ++ ".powerUnit", Value.str pf.unit),
    (siteid ++ ".feedToBattery", Value.bool feedToBattery),
    (siteid ++ ".batteryStatus",
      Value.str (match pf.STORAGE with | some s => s.status | none => "unknown")),
    (siteid ++ ".batteryPowerFlow",
      Value.num (match pf.STORAGE with | some s => s.currentPower | none => 0))]
  match pf.STORAGE with
  | none => (p0, true)
  | some st =>
    (p0 ++ [
      (siteid ++ ".batteryChargeLevel", Value.num st.chargeLevel),
      (siteid ++ ".feedToGrid", Value.bool feedToGrid),
      (siteid ++ ".gridPowerFlow",
        Value.num (match pf.GRID with | some g => g.currentPower | none => 0)),
      (siteid ++ ".housePowerFlow",
        Value.num (match pf.LOAD with | some l => l.currentPower | none => 0)),
      (siteid ++ ".pvPowerFlow",
        Value.num (match pf.PV with | some p => p.currentPower | none => 0)),
      (siteid ++ ".pvStatus",
        Value.str (match pf.PV with | some p => p.status | none => "unknown"))],
     false)

/-- The default cron schedule the adapter looks for (main.js:338). -/
def defaultSchedule : String := "*/15 * * * *"

/-- The schedule self-adjustment, main.js:336-345: only when the stored
schedule is exactly the default is it rewritten with a random seconds
prefix; `instSchedule = none` covers a missing instance object, missing
`common`, or missing `schedule`, all of which fail the guard. -/
def adjustSchedule (instSchedule : Option String) (rand : Nat) : Option String :=
  if instSchedule = some defaultSchedule then
    some (toString (rand % 60) ++ " " ++ defaultSchedule)
  else
    instSchedule

/-- The power-flow branch, main.js:291-328: when the flag is set it
re-runs `checkStatesCreationNeeded` (main.js:294; this only mutates the
`createStates` flag, which nothing later in the run reads), fetches the
currentPowerFlow endpoint and, if a `siteCurrentPowerFlow` object came
back, runs the interpret/publish pass.  Returns
(names checked, endpoints fetched, publishes, whether a throw escaped). -/
def powerFlowBranch (siteid : String) (flag : Bool)
    (resp : FetchResult PowerFlowBody) :
    List String × List String × List (String × Value) × Bool :=
  if flag then
    let checks := checkedStateNames flag
    match resp with
    | FetchResult.transportError => (checks, ["currentPowerFlow"], [], true)
    | FetchResult.ok none => (checks, ["currentPowerFlow"], [], false)
    | FetchResult.ok (some pfb) =>
      match pfb.siteCurrentPowerFlow with
      | none => (checks, ["currentPowerFlow"], [], false)
      | some pf =>
        let (pubs, threw) := publishPowerFlow siteid pf
        (checks, ["currentPowerFlow"], pubs, threw)
  else ([], [], [], false)

/-- The inputs of one adapter run (`main`, main.js:78-349): the
configuration, the current store contents, the two fetch outcomes, the
schedule stored in the instance metadata, and the randomness source. -/
structure RunInput where
  config : Config
  store : List String
  overviewResp : FetchResult OverviewBody
  powerFlowResp : FetchResult PowerFlowBody
  instSchedule : Option String
  rand : Nat
deriving DecidableEq, Repr

/-- The observable effects of one adapter run: log entries at error/warn
level, the state names existence-checked, the state names declared
(`createState`/`createStateAsync`), the `(id, value)` pairs published by
`setStateChangedAsync`, the endpoints fetched, the final stored schedule,
and whether `adapter.stop()` was reached. -/
structure RunOutput where
  logs : List (LogLevel × String)
  checks : List String
  declares : List String
  publishes : List (String × Value)
  httpCalls : List String
  schedule : Option String
  stopped : Bool
deriving DecidableEq, Repr

/-- Error message of the catch-all at main.js:329-332 (detail elided). -/
def cloudErrMsg : String := "Cannot read data from solaredge cloud"

/-- Warn message at main.js:288. -/
def noContentMsg : String := "Response has no valid content"

/-- One run of `main` (main.js:78-349).  Structure of the source:
the credentials guard (86), `checkStatesCreationNeeded` (93, before the
try), the overview fetch (97), `response.data` test (98), the dereference
`overview.currentPower.power` in the debug log (101), the
`if (createStates)` declare block (103-277), the six overview publishes
(281-286) or the warn for an absent body (288), the power-flow branch
(291-328), the catch-all (329), the schedule adjustment (336-345), and
`adapter.stop()` (347).  Any throw inside the try jumps to the catch,
which logs at error level; the run then always proceeds to the schedule
adjustment and `stop`. -/
def mainRun (inp : RunInput) : RunOutput :=
  if jsFalsy inp.config.siteid || jsFalsy inp.config.apikey then
    { logs := [(LogLevel.error, "siteid or api key not set")],
      checks := [], declares := [], publishes := [], httpCalls := [],
      schedule := inp.instSchedule, stopped := false }
  else
    let siteid := inp.config.siteid.getD ""
    let flag := inp.config.currentPowerFlow
    let checks1 := checkedStateNames flag
    let createStates1 := checks1.any (fun n => !(inp.store.contains n))
    let finalSchedule := adjustSchedule inp.instSchedule inp.rand
    match inp.overviewResp with
    | FetchResult.transportError =>
      { logs := [(LogLevel.error, cloudErrMsg)],
        checks := checks1, declares := [], publishes := [],
        httpCalls := ["overview"], schedule := finalSchedule, stopped := true }
    | FetchResult.ok none =>
      let (checks2, http2, pubs2, threw2) :=
        powerFlowBranch siteid flag inp.powerFlowResp
      { logs := (LogLevel.warn, noContentMsg) ::
          (if threw2 then [(LogLevel.error, cloudErrMsg)] else []),
        checks := checks1 ++ checks2, declares := [], publishes := pubs2,
        httpCalls := "overview" :: http2, schedule := finalSchedule,
        stopped := true }
    | FetchResult.ok (some body) =>
      match body.overview with
      | none =>
        { logs := [(LogLevel.error, cloudErrMsg)],
          checks := checks1, declares := [], publishes := [],
          httpCalls := ["overview"], schedule := finalSchedule, stopped := true }
      | some o =>
        match o.currentPower with
        | none =>
          { logs := [(LogLevel.error, cloudErrMsg)],
            checks := checks1, declares := [], publishes := [],
            httpCalls := ["overview"], schedule := finalSchedule,
            stopped := true }
        | some cp =>
          let declares := if createStates1 then declaredStateNames flag else []
          let (pubs1, threw1) := publishOverviewValues siteid o cp
          if threw1 then
            { logs := [(LogLevel.error, cloudErrMsg)],
              checks := checks1, declares := declares, publishes := pubs1,
              httpCalls := ["overview"], schedule := finalSchedule,
              stopped := true }
          else
            let (checks2, http2, pubs2, threw2) :=
              powerFlowBranch siteid flag inp.powerFlowResp
            { logs := if threw2 then [(LogLevel.error, cloudErrMsg)] else [],
              checks := checks1 ++ checks2, declares := declares,
              publishes := pubs1 ++ pubs2, httpCalls := "overview" :: http2,
              schedule := finalSchedule, stopped := true }

/-- Store contents after a run: `createState` adds the declared names. -/
def storeAfter (inp : RunInput) : List String :=
  inp.store ++ (mainRun inp).declares

/-- The overview response delivered a body whose `overview.currentPower`
dereference (main.js:101) succeeds, so the run reaches the declare block. -/
def overviewHasCore : FetchResult OverviewBody → Bool
  | FetchResult.ok (some body) =>
    match body.overview with
    | some o => o.currentPower.isSome
    | none => false
  | _ => false

/-! Concrete inputs used by witnesses, counterexamples and code-bug
evaluations. -/

def inpC6w : RunInput :=
  { config := ⟨some "1", some "k", false⟩, store := [],
    overviewResp := FetchResult.transportError,
    powerFlowResp := FetchResult.transportError,
    instSchedule := some defaultSchedule, rand := 7 }

def inpC7w : RunInput :=
  { config := ⟨none, some "k", true⟩, store := [],
    overviewResp := FetchResult.ok none,
    powerFlowResp := FetchResult.ok none,
    instSchedule := some defaultSchedule, rand := 0 }

def inpC10w : RunInput :=
  { config := ⟨some "1", some "k", true⟩, store := [],
    overviewResp := FetchResult.ok none,
    powerFlowResp := FetchResult.ok none,
    instSchedule := none, rand := 0 }

def ovW : OverviewObj :=
  { lastUpdateTime := "2024-01-01 00:00:00", currentPower := some ⟨100⟩,
    lifeTimeData := some ⟨1⟩, lastYearData := some ⟨2⟩,
    lastMonthData := some ⟨3⟩, lastDayData := some ⟨4⟩ }

def bodyW : OverviewBody := { overview := some ovW }

def inpC3w : RunInput :=
  { config := ⟨some "1", some "k", false⟩, store := [],
    overviewResp := FetchResult.ok (some bodyW),
    powerFlowResp := FetchResult.ok none,
    instSchedule := none, rand := 0 }

def inpC4w1 : RunInput :=
  { config := ⟨some "1", some "k", true⟩, store := [],
    overviewResp := FetchResult.ok (some bodyW),
    powerFlowResp := FetchResult.ok none,
    instSchedule := none, rand := 0 }

def inpC4w2 : RunInput :=
  { config := ⟨some "1", some "k", true⟩, store := storeAfter inpC4w1,
    overviewResp := FetchResult.ok (some bodyW),
    powerFlowResp := FetchResult.ok none,
    instSchedule := none, rand := 0 }

def inpC5w : RunInput :=
  { config := ⟨some "1", some "k", false⟩, store := [],
    overviewResp := FetchResult.transportError,
    powerFlowResp := FetchResult.transportError,
    instSchedule := none, rand := 0 }

def inpC8w : RunInput :=
  { config := ⟨some "1", some "k", true⟩, store := [],
    overviewResp := FetchResult.ok (some bodyW),
    powerFlowResp := FetchResult.transportError,
    instSchedule := none, rand := 0 }

def inpC9ce : RunInput :=
  { config := ⟨some "1", some "k", false⟩, store := baseStateNames,
    overviewResp := FetchResult.ok (some { overview := none }),
    powerFlowResp := FetchResult.ok none,
    instSchedule := none, rand := 0 }

def inpC9w : RunInput :=
  { config := ⟨some "1", some "k", true⟩, store := [],
    overviewResp := FetchResult.ok none,
    powerFlowResp := FetchResult.ok none,
    instSchedule := none, rand := 0 }

def pfC2w : PowerFlowObj :=
  { unit := "kW", GRID := some ⟨2, "Active", 0⟩, LOAD := some ⟨1, "Active", 0⟩,
    PV := some ⟨3, "Active", 0⟩, STORAGE := some ⟨0, "Idle", 50⟩,
    connections := [⟨"Load", "Grid"⟩] }

def pfC2ce : PowerFlowObj :=
  { unit := "kW", GRID := none, LOAD := none, PV := none, STORAGE := none,
    connections := [⟨"Load", "Grid"⟩] }

def inpC2ce : RunInput :=
  { config := ⟨some "123", some "k", true⟩, store := checkedStateNames true,
    overviewResp := FetchResult.ok (some bodyW),
    powerFlowResp := FetchResult.ok (some { siteCurrentPowerFlow := some pfC2ce }),
    instSchedule := none, rand := 0 }

def pfC1ce : PowerFlowObj :=
  { unit := "kW", GRID := some ⟨2, "Active", 0⟩, LOAD := some ⟨1, "Active", 0⟩,
    PV := some ⟨3, "Active", 0⟩, STORAGE := none, connections := [] }

def inpC1ce : RunInput :=
  { config := ⟨some "123", some "k", true⟩, store := checkedStateNames true,
    overviewResp := FetchResult.ok (some bodyW),
    powerFlowResp := FetchResult.ok (some { siteCurrentPowerFlow := some pfC1ce }),
    instSchedule := none, rand := 0 }

/-! Helper lemmas about the run function. -/

/-! ### Helper lemmas -/

lemma contains_iff_mem (l : List String) (n : String) :
    l.contains n = true ↔ n ∈ l :=
  List.elem_iff

lemma string_append_left_cancel {s a b : String} (h : s ++ a = s ++ b) :
    a = b := by
  have hd : s.data ++ a.data = s.data ++ b.data := by
    have := congrArg String.data h
    simpa [String.data_append] using this
  exact String.ext (List.append_cancel_left hd)

lemma string_key_ne (s : String) {a b : String} (h : a ≠ b) :
    s ++ a ≠ s ++ b :=
  fun hc => h (string_append_left_cancel hc)

/-- The names checked by the power-flow branch: the full active catalog when
the flag is set, nothing otherwise. -/
lemma powerFlowBranch_checks (siteid : String) (flag : Bool)
    (resp : FetchResult PowerFlowBody) :
    (powerFlowBranch siteid flag resp).1 =
      if flag then checkedStateNames flag else [] := by
  unfold powerFlowBranch
  cases flag with
  | false => rfl
  | true =>
    cases resp with
    | transportError => rfl
    | ok d =>
      cases d with
      | none => rfl
      | some pfb =>
        cases hpf : pfb.siteCurrentPowerFlow with
        | none => simp [hpf]
        | some pf => simp [hpf]

/-- Endpoints fetched by the power-flow branch. -/
lemma powerFlowBranch_http (siteid : String) (flag : Bool)
    (resp : FetchResult PowerFlowBody) :
    (powerFlowBranch siteid flag resp).2.1 =
      if flag then ["currentPowerFlow"] else [] := by
  unfold powerFlowBranch
  cases flag with
  | false => rfl
  | true =>
    cases resp with
    | transportError => rfl
    | ok d =>
      cases d with
      | none => rfl
      | some pfb =>
        cases hpf : pfb.siteCurrentPowerFlow with
        | none => simp [hpf]
        | some pf => simp [hpf]

/-- With valid credentials the run always ends in the schedule adjustment. -/
lemma mainRun_schedule (inp : RunInput)
    (hcred : (jsFalsy inp.config.siteid || jsFalsy inp.config.apikey) = false) :
    (mainRun inp).schedule = adjustSchedule inp.instSchedule inp.rand := by
  unfold mainRun
  rw [hcred]
  simp only [Bool.false_eq_true, if_false]
  repeat' (first | rfl | split)

/-- With valid credentials the run always reaches `adapter.stop()`. -/
lemma mainRun_stopped (inp : RunInput)
    (hcred : (jsFalsy inp.config.siteid || jsFalsy inp.config.apikey) = false) :
    (mainRun inp).stopped = true := by
  unfold mainRun
  rw [hcred]
  simp only [Bool.false_eq_true, if_false]
  repeat' (first | rfl | split)

/-- When every name of the active catalog is already in the store, no run
declares anything (no credentials assumption needed). -/
lemma mainRun_declares_nil_of_all_present (inp : RunInput)
    (h : ((checkedStateNames inp.config.currentPowerFlow).any
      (fun n => !(inp.store.contains n))) = false) :
    (mainRun inp).declares = [] := by
  unfold mainRun
  simp only [Bool.false_eq_true, if_false]
  repeat' (first | rfl | (rw [h]) | split)

/-- When the run reaches the declare block (main.js:103) and some catalog
name is missing, the whole active catalog is declared. -/
lemma mainRun_declares_of_missing (inp : RunInput) (body : OverviewBody)
    (o : OverviewObj) (cp : CPower)
    (hcred : (jsFalsy inp.config.siteid || jsFalsy inp.config.apikey) = false)
    (hov : inp.overviewResp = FetchResult.ok (some body))
    (hbo : body.overview = some o)
    (hcp : o.currentPower = some cp)
    (h : ((checkedStateNames inp.config.currentPowerFlow).any
      (fun n => !(inp.store.contains n))) = true) :
    (mainRun inp).declares = declaredStateNames inp.config.currentPowerFlow := by
  unfold mainRun
  rw [hcred]
  simp only [Bool.false_eq_true, if_false, hov, hbo, hcp]
  rw [h]
  repeat' (first | rfl | split)

/-- A run never declares outside the `if (createStates)` block: the declare
list is either empty or the whole active catalog. -/
lemma mainRun_declares_cases (inp : RunInput) :
    (mainRun inp).declares = [] ∨
      (mainRun inp).declares =
        declaredStateNames inp.config.currentPowerFlow := by
  unfold mainRun
  simp only [Bool.false_eq_true, if_false]
  repeat' (first | (exact Or.inl rfl) | (exact Or.inr rfl) | split)

/-- With valid credentials, the set of names existence-checked during a run
is exactly the active catalog (line 93 always checks it; the power-flow
branch at line 294 re-checks the same names). -/
lemma mainRun_checks_mem (inp : RunInput) (n : String)
    (hcred : (jsFalsy inp.config.siteid || jsFalsy inp.config.apikey) = false) :
    n ∈ (mainRun inp).checks ↔
      n ∈ checkedStateNames inp.config.currentPowerFlow := by
  unfold mainRun
  rw [hcred]
  simp only [Bool.false_eq_true, if_false]
  repeat'
    (first
      | rfl
      | (simp only [powerFlowBranch_checks, List.mem_append]
         cases hf : inp.config.currentPowerFlow <;> simp
    )
      | split)

lemma any_missing_eq_true {store l : List String} :
    (l.any (fun n => !(store.contains n)) = true) ↔ ∃ n ∈ l, n ∉ store := by
  simp [List.any_eq_true, contains_iff_mem]

lemma any_missing_eq_false {store l : List String} :
    (l.any (fun n => !(store.contains n)) = false) ↔ ∀ n ∈ l, n ∈ store := by
  rw [← Bool.not_eq_true, any_missing_eq_true]
  push_neg
  rfl

lemma checked_subset_declared (flag : Bool) :
    ∀ n ∈ checkedStateNames flag, n ∈ declaredStateNames flag := by
  cases flag <;> decide

/-- C6: at the end of a run with credentials set, the stored schedule is
rewritten with a seconds prefix exactly when it equals the default
`*/15 * * * *`, and left unchanged otherwise. -/
theorem C6_schedule_self_adjustment (inp : RunInput)
    (hcred : (jsFalsy inp.config.siteid || jsFalsy inp.config.apikey) = false) :
    (inp.instSchedule = some defaultSchedule →
      ∃ s, s ≤ 59 ∧
        (mainRun inp).schedule = some (toString s ++ " " ++ defaultSchedule)) ∧
    (inp.instSchedule ≠ some defaultSchedule →
      (mainRun inp).schedule = inp.instSchedule) := by
  rw [mainRun_schedule inp hcred]
  constructor
  · intro hdef
    refine ⟨inp.rand % 60, by omega, ?_⟩
    simp [adjustSchedule, hdef]
  · intro hne
    simp [adjustSchedule, hne]

theorem C6_witness :
    (jsFalsy inpC6w.config.siteid || jsFalsy inpC6w.config.apikey) = false ∧
    (∃ s, s ≤ 59 ∧
      (mainRun inpC6w).schedule = some (toString s ++ " " ++ defaultSchedule)) :=
  ⟨by decide, (C6_schedule_self_adjustment inpC6w (by decide)).1 rfl⟩

/-- C7: with `siteid` or `apikey` unset the run only logs an error: no
fetch, no existence check, no declaration, no publish. -/
theorem C7_missing_credentials_abort (inp : RunInput)
    (hcred : (jsFalsy inp.config.siteid || jsFalsy inp.config.apikey) = true) :
    (mainRun inp).logs = [(LogLevel.error, "siteid or api key not set")] ∧
    (mainRun inp).httpCalls = [] ∧
    (mainRun inp).checks = [] ∧
    (mainRun inp).declares = [] ∧
    (mainRun inp).publishes = [] := by
  unfold mainRun
  rw [hcred]
  simp

theorem C7_witness :
    (jsFalsy inpC7w.config.siteid || jsFalsy inpC7w.config.apikey) = true ∧
    ((mainRun inpC7w).logs = [(LogLevel.error, "siteid or api key not set")] ∧
     (mainRun inpC7w).httpCalls = [] ∧
     (mainRun inpC7w).checks = [] ∧
     (mainRun inpC7w).declares = [] ∧
     (mainRun inpC7w).publishes = []) :=
  ⟨rfl, C7_missing_credentials_abort inpC7w rfl⟩

/-- C10: when the overview fetch throws or returns an empty body, no declare
call is made, even though (with the feature flag set) the power-flow branch
still re-runs the existence checks. -/
theorem C10_declares_need_overview_body (inp : RunInput)
    (h : inp.overviewResp = FetchResult.transportError ∨
         inp.overviewResp = FetchResult.ok none) :
    (mainRun inp).declares = [] ∧
    ((jsFalsy inp.config.siteid || jsFalsy inp.config.apikey) = false →
      inp.overviewResp = FetchResult.ok none →
      inp.config.currentPowerFlow = true →
      ∀ n ∈ powerFlowStateNames, n ∈ (mainRun inp).checks) := by
  constructor
  · rcases h with h | h <;>
      (unfold mainRun
       simp only [h, Bool.false_eq_true, if_false]
       repeat' (first | rfl | split))
  · intro hcred hov hflag n hn
    rw [mainRun_checks_mem inp n hcred, hflag]
    exact (by decide : ∀ m ∈ powerFlowStateNames, m ∈ checkedStateNames true) n hn

theorem C10_witness :
    (inpC10w.overviewResp = FetchResult.transportError ∨
     inpC10w.overviewResp = FetchResult.ok none) ∧
    (mainRun inpC10w).declares = [] :=
  ⟨Or.inr rfl, (C10_declares_need_overview_body inpC10w (Or.inr rfl)).1⟩

/-- C3: once the run reaches the declare decision (overview body with the
`overview.currentPower` path present), a single missing catalog entry makes
the run declare the whole active catalog, and a fully present catalog makes
it declare nothing. -/
theorem C3_declare_mode_all_or_nothing (inp : RunInput) (body : OverviewBody)
    (o : OverviewObj) (cp : CPower)
    (hcred : (jsFalsy inp.config.siteid || jsFalsy inp.config.apikey) = false)
    (hov : inp.overviewResp = FetchResult.ok (some body))
    (hbo : body.overview = some o)
    (hcp : o.currentPower = some cp) :
    ((∃ n ∈ checkedStateNames inp.config.currentPowerFlow, n ∉ inp.store) →
      (mainRun inp).declares =
        declaredStateNames inp.config.currentPowerFlow ∧
      ∀ n ∈ checkedStateNames inp.config.currentPowerFlow,
        n ∈ (mainRun inp).declares) ∧
    ((∀ n ∈ checkedStateNames inp.config.currentPowerFlow, n ∈ inp.store) →
      (mainRun inp).declares = []) := by
  constructor
  · intro hmiss
    have hany := any_missing_eq_true.mpr hmiss
    have hdecl := mainRun_declares_of_missing inp body o cp hcred hov hbo hcp hany
    refine ⟨hdecl, ?_⟩
    intro n hn
    rw [hdecl]
    exact checked_subset_declared _ n hn
  · intro hall
    exact mainRun_declares_nil_of_all_present inp (any_missing_eq_false.mpr hall)

theorem C3_witness :
    (jsFalsy inpC3w.config.siteid || jsFalsy inpC3w.config.apikey) = false ∧
    (∃ n ∈ checkedStateNames inpC3w.config.currentPowerFlow, n ∉ inpC3w.store) ∧
    (mainRun inpC3w).declares =
      declaredStateNames inpC3w.config.currentPowerFlow :=
  ⟨by decide, ⟨"currentPower", by decide⟩,
    ((C3_declare_mode_all_or_nothing inpC3w bodyW
      ovW ⟨100⟩ (by decide) rfl rfl rfl).1
      ⟨"currentPower", by decide⟩).1⟩

/-- C4: a run that reached its declare decision leaves every active-catalog
entry in the store, so a second run over the resulting store (same feature
flag, no external mutation) declares nothing. -/
theorem C4_idempotent_reconciliation (inp1 inp2 : RunInput)
    (body : OverviewBody) (o : OverviewObj) (cp : CPower)
    (hcred1 : (jsFalsy inp1.config.siteid || jsFalsy inp1.config.apikey) = false)
    (hov : inp1.overviewResp = FetchResult.ok (some body))
    (hbo : body.overview = some o)
    (hcp : o.currentPower = some cp)
    (hstore : inp2.store = storeAfter inp1)
    (hflag : inp2.config.currentPowerFlow = inp1.config.currentPowerFlow) :
    (mainRun inp2).declares = [] := by
  apply mainRun_declares_nil_of_all_present
  apply any_missing_eq_false.mpr
  intro n hn
  rw [hstore]
  unfold storeAfter
  rw [List.mem_append]
  rw [hflag] at hn
  by_cases hmiss :
      ((checkedStateNames inp1.config.currentPowerFlow).any
        (fun m => !(inp1.store.contains m))) = true
  · right
    rw [mainRun_declares_of_missing inp1 body o cp hcred1 hov hbo hcp hmiss]
    exact checked_subset_declared _ n hn
  · left
    have hall := any_missing_eq_false.mp (Bool.eq_false_iff.mpr hmiss)
    exact hall n hn

theorem C4_witness :
    (jsFalsy inpC4w1.config.siteid || jsFalsy inpC4w1.config.apikey) = false ∧
    (mainRun inpC4w2).declares = [] :=
  ⟨by decide,
    C4_idempotent_reconciliation inpC4w1 inpC4w2 bodyW
      ovW ⟨100⟩ (by decide) rfl rfl rfl rfl rfl⟩

/-- C5: with the feature flag off the extended catalog is neither checked
nor declared; with it on, every base and extended entry is checked. -/
theorem C5_feature_flag_gating (inp : RunInput)
    (hcred : (jsFalsy inp.config.siteid || jsFalsy inp.config.apikey) = false) :
    (inp.config.currentPowerFlow = false →
      ∀ n ∈ powerFlowStateNames,
        n ∉ (mainRun inp).checks ∧ n ∉ (mainRun inp).declares) ∧
    (inp.config.currentPowerFlow = true →
      ∀ n ∈ baseStateNames ++ powerFlowStateNames,
        n ∈ (mainRun inp).checks) := by
  constructor
  · intro hf n hn
    constructor
    · rw [mainRun_checks_mem inp n hcred, hf]
      exact (by decide : ∀ m ∈ powerFlowStateNames,
        m ∉ checkedStateNames false) n hn
    · rcases mainRun_declares_cases inp with h | h
      · simp [h]
      · rw [hf] at h
        rw [h]
        exact (by decide : ∀ m ∈ powerFlowStateNames,
          m ∉ declaredStateNames false) n hn
  · intro hf n hn
    rw [mainRun_checks_mem inp n hcred, hf]
    exact hn

theorem C5_witness :
    (jsFalsy inpC5w.config.siteid || jsFalsy inpC5w.config.apikey) = false ∧
    ("feedToGrid" ∉ (mainRun inpC5w).checks ∧
     "feedToGrid" ∉ (mainRun inpC5w).declares) :=
  ⟨by decide,
    (C5_feature_flag_gating inpC5w (by decide)).1 rfl "feedToGrid" (by decide)⟩

/-- C8: when the overview round trip fully succeeds but the power-flow fetch
throws, the six overview publishes stand, nothing power-flow related is
published, and the run still adjusts the schedule and stops. -/
theorem C8_partial_failure_isolation (inp : RunInput) (body : OverviewBody)
    (o : OverviewObj) (cp : CPower) (lt ly lm ld : EnergyData)
    (hcred : (jsFalsy inp.config.siteid || jsFalsy inp.config.apikey) = false)
    (hov : inp.overviewResp = FetchResult.ok (some body))
    (hbo : body.overview = some o)
    (hcp : o.currentPower = some cp)
    (hlt : o.lifeTimeData = some lt)
    (hly : o.lastYearData = some ly)
    (hlm : o.lastMonthData = some lm)
    (hld : o.lastDayData = some ld)
    (hpf : inp.powerFlowResp = FetchResult.transportError) :
    (mainRun inp).publishes =
      [(inp.config.siteid.getD "" ++ ".lastUpdateTime",
          Value.str o.lastUpdateTime),
       (inp.config.siteid.getD "" ++ ".currentPower", Value.num cp.power),
       (inp.config.siteid.getD "" ++ ".lifeTimeData", Value.num lt.energy),
       (inp.config.siteid.getD "" ++ ".lastYearData", Value.num ly.energy),
       (inp.config.siteid.getD "" ++ ".lastMonthData", Value.num lm.energy),
       (inp.config.siteid.getD "" ++ ".lastDayData", Value.num ld.energy)] ∧
    (mainRun inp).schedule = adjustSchedule inp.instSchedule inp.rand ∧
    (mainRun inp).stopped = true := by
  refine ⟨?_, mainRun_schedule inp hcred, mainRun_stopped inp hcred⟩
  have hpub : publishOverviewValues (inp.config.siteid.getD "") o cp =
      ([(inp.config.siteid.getD "" ++ ".lastUpdateTime",
          Value.str o.lastUpdateTime),
        (inp.config.siteid.getD "" ++ ".currentPower", Value.num cp.power),
        (inp.config.siteid.getD "" ++ ".lifeTimeData", Value.num lt.energy),
        (inp.config.siteid.getD "" ++ ".lastYearData", Value.num ly.energy),
        (inp.config.siteid.getD "" ++ ".lastMonthData", Value.num lm.energy),
        (inp.config.siteid.getD "" ++ ".lastDayData", Value.num ld.energy)],
       false) := by
    unfold publishOverviewValues
    rw [hlt, hly, hlm, hld]
    rfl
  have hpfb : powerFlowBranch (inp.config.siteid.getD "")
      inp.config.currentPowerFlow inp.powerFlowResp =
      (if inp.config.currentPowerFlow then checkedStateNames true else [],
       if inp.config.currentPowerFlow then ["currentPowerFlow"] else [],
       [], inp.config.currentPowerFlow) := by
    unfold powerFlowBranch
    rw [hpf]
    cases inp.config.currentPowerFlow <;> rfl
  unfold mainRun
  rw [hcred]
  simp only [Bool.false_eq_true, if_false, hov, hbo, hcp, hpub, hpfb]
  simp

theorem C8_witness :
    (jsFalsy inpC8w.config.siteid || jsFalsy inpC8w.config.apikey) = false ∧
    ((mainRun inpC8w).publishes =
      [("1.lastUpdateTime", Value.str "2024-01-01 00:00:00"),
       ("1.currentPower", Value.num 100),
       ("1.lifeTimeData", Value.num 1),
       ("1.lastYearData", Value.num 2),
       ("1.lastMonthData", Value.num 3),
       ("1.lastDayData", Value.num 4)] ∧
     (mainRun inpC8w).schedule =
       adjustSchedule inpC8w.instSchedule inpC8w.rand ∧
     (mainRun inpC8w).stopped = true) :=
  ⟨by decide,
    C8_partial_failure_isolation inpC8w bodyW ovW ⟨100⟩ ⟨1⟩ ⟨2⟩ ⟨3⟩ ⟨4⟩
      (by decide) rfl rfl rfl rfl rfl rfl rfl rfl⟩

/-- C9 counterexample: a 200 response whose body is present but lacks the
`overview` object is logged at error level by the catch-all (the claim says
warn), and no warn entry appears. -/
theorem C9_counterexample :
    (mainRun inpC9ce).logs = [(LogLevel.error, cloudErrMsg)] ∧
    ((mainRun inpC9ce).logs.all (fun l => !(l.1 == LogLevel.warn))) = true := by
  constructor <;> rfl

/-- C9 amended: an absent body is the warn/not-fatal case (the run even
proceeds to the power-flow branch and to `adapter.stop()`), while a present
body with the `overview` object absent throws, is logged at error level by
the catch-all, publishes nothing, and still reaches `adapter.stop()`. -/
theorem C9_amended_response_handling (inp : RunInput)
    (hcred : (jsFalsy inp.config.siteid || jsFalsy inp.config.apikey) = false) :
    (inp.overviewResp = FetchResult.ok none →
      (LogLevel.warn, noContentMsg) ∈ (mainRun inp).logs ∧
      (mainRun inp).declares = [] ∧
      (mainRun inp).stopped = true ∧
      (inp.config.currentPowerFlow = true →
        "currentPowerFlow" ∈ (mainRun inp).httpCalls) ∧
      (inp.config.currentPowerFlow = false → (mainRun inp).publishes = [])) ∧
    (∀ body, inp.overviewResp = FetchResult.ok (some body) →
      body.overview = none →
      (mainRun inp).logs = [(LogLevel.error, cloudErrMsg)] ∧
      (mainRun inp).publishes = [] ∧
      (mainRun inp).stopped = true) := by
  constructor
  · intro hov
    refine ⟨?_, ?_, mainRun_stopped inp hcred, ?_, ?_⟩
    · unfold mainRun
      rw [hcred]
      simp only [Bool.false_eq_true, if_false, hov]
      simp
    · unfold mainRun
      rw [hcred]
      simp only [Bool.false_eq_true, if_false, hov]
    · intro hf
      unfold mainRun
      rw [hcred]
      simp only [Bool.false_eq_true, if_false, hov, powerFlowBranch_http, hf]
      simp
    · intro hf
      unfold mainRun
      rw [hcred]
      have : powerFlowBranch (inp.config.siteid.getD "")
          inp.config.currentPowerFlow inp.powerFlowResp = ([], [], [], false) := by
        unfold powerFlowBranch
        rw [hf]
        rfl
      simp only [Bool.false_eq_true, if_false, hov, this]
  · intro body hov hbo
    unfold mainRun
    rw [hcred]
    simp only [Bool.false_eq_true, if_false, hov, hbo]
    simp

theorem C9_witness :
    (jsFalsy inpC9w.config.siteid || jsFalsy inpC9w.config.apikey) = false ∧
    ((LogLevel.warn, noContentMsg) ∈ (mainRun inpC9w).logs ∧
     (mainRun inpC9w).declares = [] ∧
     (mainRun inpC9w).stopped = true ∧
     (inpC9w.config.currentPowerFlow = true →
       "currentPowerFlow" ∈ (mainRun inpC9w).httpCalls) ∧
     (inpC9w.config.currentPowerFlow = false →
       (mainRun inpC9w).publishes = [])) :=
  ⟨by decide, (C9_amended_response_handling inpC9w (by decide)).1 rfl⟩

lemma append_eq_append_iff (s a b : String) : s ++ a = s ++ b ↔ a = b :=
  ⟨string_append_left_cancel, fun h => h ▸ rfl⟩

/-- C2 amended: `feedToBattery` is always published with exactly the derived
edge-scan boolean; `feedToGrid` is too, but only when the STORAGE node is
present, because the unguarded `chargeLevel` access at main.js:320 throws
before the `feedToGrid` publish otherwise. -/
theorem C2_amended_flow_flags (siteid : String) (pf : PowerFlowObj) :
    (∀ v, (siteid ++ ".feedToBattery", v) ∈ (publishPowerFlow siteid pf).1 ↔
        v = Value.bool (pf.connections.any isLoadToStorage)) ∧
    (pf.STORAGE.isSome = true →
      ∀ v, (siteid ++ ".feedToGrid", v) ∈ (publishPowerFlow siteid pf).1 ↔
        v = Value.bool (pf.connections.any isLoadToGrid)) := by
  constructor
  · intro v
    cases hst : pf.STORAGE <;>
      simp [publishPowerFlow, hst, Prod.mk.injEq, append_eq_append_iff]
  · intro hsome v
    cases hst : pf.STORAGE with
    | none => rw [hst] at hsome; simp at hsome
    | some st =>
      simp [publishPowerFlow, hst, Prod.mk.injEq, append_eq_append_iff]

theorem C2_witness :
    pfC2w.STORAGE.isSome = true ∧
    (("1" ++ ".feedToGrid", Value.bool true) ∈ (publishPowerFlow "1" pfC2w).1 ↔
      Value.bool true = Value.bool (pfC2w.connections.any isLoadToGrid)) :=
  ⟨rfl, (C2_amended_flow_flags "1" pfC2w).2 rfl (Value.bool true)⟩

/-- C2 counterexample: with a matching `Load -> Grid` edge but no STORAGE
node, the run never publishes `feedToGrid` at all (the pass throws at the
`chargeLevel` access first), so "published as true iff a matching edge
exists" fails. -/
theorem C2_counterexample :
    (pfC2ce.connections.any isLoadToGrid) = true ∧
    ((mainRun inpC2ce).publishes.all
      (fun p => !(p.1 == "123.feedToGrid"))) = true := by
  exact ⟨by decide, by decide⟩

/-- C1: on a power-flow response whose STORAGE node is absent the
interpret/publish pass does NOT complete: `batteryStatus` still gets its
"unknown" default (published before the bug), but the unguarded
`powerFlow.STORAGE.chargeLevel` access at main.js:320 throws, so
`batteryChargeLevel` (which the claim says defaults to 0) and every later
field (`feedToGrid`, `gridPowerFlow`, `housePowerFlow`, `pvPowerFlow`,
`pvStatus`) are never published, and the catch-all logs an error. -/
theorem C1_storage_absent_not_defaulted :
    ((mainRun inpC1ce).publishes.contains
        ("123.batteryStatus", Value.str "unknown")) = true ∧
    ((mainRun inpC1ce).publishes.all
        (fun p => !(p.1 == "123.batteryChargeLevel") &&
                  !(p.1 == "123.feedToGrid") &&
                  !(p.1 == "123.gridPowerFlow") &&
                  !(p.1 == "123.housePowerFlow") &&
                  !(p.1 == "123.pvPowerFlow") &&
                  !(p.1 == "123.pvStatus"))) = true ∧
    (mainRun inpC1ce).logs = [(LogLevel.error, cloudErrMsg)] := by
  exact ⟨by decide, by decide, by decide⟩
